import Mathlib

/-!
Verification development for the frappe_whatsapp gateway.

The Python sources are shallowly embedded:
* inbound JSON payloads become the `JValue` type, with `pyGet` / `pyIndex` /
  `pyGetD` mirroring Python's `dict.get(k)`, `d[k]` and `dict.get(k, default)`
  including the exceptions they raise (modelled as `Except String`);
* record-store writes and log writes become explicit `Effect` values so the
  order and number of side effects is observable;
* the two outbound HTTP fetches of the media pipeline, the blob store and the
  send API are modelled by environment records (`MediaEnv`, `SendEnv`) whose
  fields carry the responses the collaborators would return.

Functions keep the names of the source functions they embed; `...W` marks the
copy in frappe_whatsapp/utils/webhook.py and `...T` the duplicated copy in
frappe_whatsapp/utils/template_utils.py where the two files differ.
-/

namespace FWhats

/-- JSON values as delivered in webhook payloads. `jnull` doubles as Python's
`None`. Objects are association lists in insertion order. -/
inductive JValue where
  | jnull : JValue
  | jbool : Bool → JValue
  | jstr : String → JValue
  | jnum : Int → JValue
  | jarr : List JValue → JValue
  | jobj : List (String × JValue) → JValue
deriving Repr

/-- First binding of a key in an association list (Python dict lookup; the
payloads we model never carry duplicate keys). -/
def lookupKV : List (String × JValue) → String → Option JValue
  | [], _ => none
  | (k, v) :: rest, key => if k = key then some v else lookupKV rest key

/-- Python truthiness of a JSON value (`bool(x)`). -/
def JValue.truthy : JValue → Bool
  | .jnull => false
  | .jbool b => b
  | .jstr s => s ≠ ""
  | .jnum n => n ≠ 0
  | .jarr xs => !xs.isEmpty
  | .jobj kvs => !kvs.isEmpty

/-- Python `x == "lit"` for a JSON value against a string literal: true
exactly when `x` is that string (the comparisons of the if/elif dispatch in
`handle_incoming_message` and of `data.get("type") in [...]`). -/
def JValue.eqStr : JValue → String → Bool
  | .jstr s, t => s = t
  | _, _ => false

/-- Python `str(x)`, as used inside the f-strings of the source. Lists and
dicts are rendered coarsely; no claim depends on their rendering. -/
def JValue.pyStr : JValue → String
  | .jnull => "None"
  | .jbool true => "True"
  | .jbool false => "False"
  | .jstr s => s
  | .jnum n => toString n
  | .jarr _ => "<list>"
  | .jobj _ => "<dict>"

/-- Python `d.get(k)`: `None` when the key is absent, `AttributeError` when the
receiver is not a dict (e.g. `None.get`). -/
def JValue.pyGet : JValue → String → Except String JValue
  | .jobj kvs, k => .ok ((lookupKV kvs k).getD .jnull)
  | _, _ => .error "AttributeError"

/-- Python `d.get(k, default)`. -/
def JValue.pyGetD : JValue → String → JValue → Except String JValue
  | .jobj kvs, k, d => .ok ((lookupKV kvs k).getD d)
  | _, _, _ => .error "AttributeError"

/-- Python `d[k]`: `KeyError` when absent, `TypeError` on a non-dict. -/
def JValue.pyIndex : JValue → String → Except String JValue
  | .jobj kvs, k =>
    match lookupKV kvs k with
    | some v => .ok v
    | none => .error "KeyError"
  | _, _ => .error "TypeError"

/-- Python `xs[i]` on a JSON array: `IndexError` when out of range. -/
def JValue.pyIndexNat : JValue → Nat → Except String JValue
  | .jarr xs, i =>
    match xs[i]? with
    | some v => .ok v
    | none => .error "IndexError"
  | _, _ => .error "TypeError"

/-- `dict.get` restricted to objects, total (used only where the receiver is an
object by construction, e.g. the payload dict built by `send_template`). -/
def JValue.getJ : JValue → String → JValue
  | .jobj kvs, k => (lookupKV kvs k).getD .jnull
  | _, _ => .jnull

/-- Python `d[k] = v` on an association list: overwrite in place or append. -/
def objSet (kvs : List (String × JValue)) (k : String) (v : JValue) :
    List (String × JValue) :=
  if kvs.any (fun p => p.1 = k) then
    kvs.map (fun p => if p.1 = k then (k, v) else p)
  else kvs ++ [(k, v)]

/-- Python `dict.update`: every binding of the second object is written into
the first. Non-objects are left unchanged (the source only updates dicts with
dicts on the paths the claims exercise). -/
def JValue.dictUpdate : JValue → JValue → JValue
  | .jobj a, .jobj b => .jobj (b.foldl (fun acc p => objSet acc p.1 p.2) a)
  | a, _ => a

/-- Python `if k not in d: d[k] = v` on an object. -/
def JValue.objSetIfAbsent : JValue → String → JValue → JValue
  | .jobj kvs, k, v =>
    match lookupKV kvs k with
    | some _ => .jobj kvs
    | none => .jobj (kvs ++ [(k, v)])
  | j, _, _ => j

/-! ## Inbound records and effects -/

/-- The field dictionary passed to `frappe.get_doc({...})` for a
"WhatsApp Message" insert in webhook handling. The Python source merges
`common_fields` with branch-specific overrides (`{**common_fields, ...}`,
later keys winning); the structure holds the merged result. `attach` is the
attachment URL patched onto media records (jnull until patched). -/
structure MsgDoc where
  from_ : JValue
  message_id : JValue
  reply_to_message_id : JValue
  is_reply : Bool
  message : JValue
  content_type : JValue
  profile_name : JValue
  whatsapp_account : String
  attach : JValue
deriving Repr

/-- Observable side effects of inbound processing, in program order:
record inserts, error-log writes, blob-store writes (`File` doc save) and the
save that patches the attachment URL onto an already inserted record. -/
inductive Effect where
  | insertMsg : MsgDoc → Effect
  | errorLog : String → Effect
  | blobWrite : String → Effect
  | patchAttach : MsgDoc → Effect
deriving Repr

/-- Responses of the collaborators used by `handle_media_message`: the media
metadata GET, the media content GET, the blob store, and the value of
`frappe.generate_hash(length=10)`. -/
structure MediaEnv where
  metaStatus : Nat
  metaBody : JValue
  contentStatus : Nat
  hashName : String
  blobOk : Bool
  fileUrl : String
deriving Repr

/-- webhook.py line 66: extension from the MIME subtype —
`mime_type.split('/')[-1]` is the segment after the last slash — and `"dat"`
when the MIME string has no slash; `'/' in mime_type` raises on a
non-string. -/
def fileExtension (mime_type : JValue) : Except String String :=
  match mime_type with
  | .jstr s =>
    .ok (if s.data.any (fun c => c = '/') then
      String.mk (s.data.foldl (fun acc c => if c = '/' then [] else acc ++ [c]) [])
    else "dat")
  | _ => .error "TypeError"

/-- Body of `handle_media_message` (webhook.py lines 44-107; template_utils.py
is byte-identical here apart from the name of the logging helper). A blob-save
failure happens after the record insert, so its caught-and-logged outcome is
returned inline; every other failure happens before any effect and is returned
as `.error` for the wrapper to log. -/
def handleMediaMessageGo (message : JValue) (message_type : String)
    (env : MediaEnv) ( is_reply : Bool) (reply_to_message_id : JValue)
    (prof : JValue) (acct : String) : Except String (List Effect) := do
  let mobj ← message.pyIndex message_type
  let _media_id ← mobj.pyIndex "id"
  let caption ← mobj.pyGet "caption"
  if env.metaStatus = 200 then do
    let media_url ← env.metaBody.pyGet "url"
    let mime_type ← env.metaBody.pyGet "mime_type"
    let file_extension ← fileExtension mime_type
    match media_url with
    | .jstr _ => do
      if env.contentStatus = 200 then do
        let file_name := env.hashName ++ "." ++ file_extension
        let message_content :=
          if caption.truthy then caption else .jstr ("/files/" ++ file_name)
        let f ← message.pyIndex "from"
        let mid ← message.pyIndex "id"
        let d : MsgDoc :=
          { from_ := f
            message_id := mid
            reply_to_message_id := reply_to_message_id
            is_reply := is_reply
            message := message_content
            content_type := .jstr message_type
            profile_name := prof
            whatsapp_account := acct
            attach := .jnull }
        if env.blobOk then
          .ok [Effect.insertMsg d, Effect.blobWrite file_name,
               Effect.patchAttach { d with attach := .jstr env.fileUrl }]
        else
          .ok [Effect.insertMsg d, Effect.errorLog "WHATSAPP_WEBHOOK_MEDIA_ERROR"]
      else .ok []
    | _ => .error "RequestError"
  else .ok []

/-- `handle_media_message` with its enclosing try/except: any exception is
caught and logged, aborting nothing outside the function. -/
def handleMediaMessage (message : JValue) (message_type : String)
    (env : MediaEnv) ( is_reply : Bool) (reply_to_message_id : JValue)
    (prof : JValue) (acct : String) : List Effect :=
  match handleMediaMessageGo message message_type env is_reply
      reply_to_message_id prof acct with
  | .ok t => t
  | .error _ => [Effect.errorLog "WHATSAPP_WEBHOOK_MEDIA_ERROR"]

/-- webhook.py lines 120-122: reply detection.
`is_reply = bool(context and context.get('id'))`;
`reply_to_message_id = context['id'] if is_reply else None`. -/
def contextExtract (message : JValue) : Except String (Bool × JValue) := do
  let context ← message.pyGet "context"
  let idv ← if context.truthy then context.pyGet "id" else .ok JValue.jnull
  let irep := idv.truthy
  let reply ← if irep then context.pyIndex "id" else .ok JValue.jnull
  .ok (irep, reply)

/-- First `wa_id` among a contact's phone entries, else the `"No WA ID"`
sentinel (webhook.py lines 203-206). Python's membership test on a non-dict
entry is modelled as an error. -/
def firstWaId : List JValue → Except String JValue
  | [] => .ok (.jstr "No WA ID")
  | p :: rest =>
    match p with
    | .jobj kvs =>
      match lookupKV kvs "wa_id" with
      | some v => .ok v
      | none => firstWaId rest
    | _ => .error "TypeError"

/-- One entry of the contact branch: `"{formatted_name} ({wa_id})"`
(webhook.py lines 201-207). -/
def contactEntry (contact : JValue) : Except String String := do
  let nm ← contact.pyGetD "name" (.jobj [])
  let contact_name ← nm.pyGetD "formatted_name" (.jstr "Unknown Name")
  let phones ← contact.pyGetD "phones" (.jarr [])
  match phones with
  | .jarr ps => do
    let pn ← firstWaId ps
    .ok (contact_name.pyStr ++ " (" ++ pn.pyStr ++ ")")
  | _ => .error "TypeError"

/-- The type dispatch of `handle_incoming_message` in webhook.py
(lines 135-235), applied after the common fields have been extracted. The
source is an if/elif chain on `message_type == '...'`, mirrored here with
`eqStr`. -/
def dispatchW (message : JValue) (message_type : JValue) (common : MsgDoc)
    (env : MediaEnv) ( is_reply : Bool) (reply_to_message_id : JValue)
    (prof : JValue) (acct : String) : Except String (List Effect) :=
  if message_type.eqStr "text" then do
    let t ← message.pyIndex "text"
    let body ← t.pyIndex "body"
    .ok [Effect.insertMsg { common with message := body, content_type := .jstr "text" }]
  else if message_type.eqStr "reaction" then do
    let r ← message.pyIndex "reaction"
    let emoji ← r.pyIndex "emoji"
    let rmid ← r.pyIndex "message_id"
    .ok [Effect.insertMsg { common with
          message := emoji
          reply_to_message_id := rmid
          content_type := .jstr "reaction"
          is_reply := true }]
  else if message_type.eqStr "interactive" then do
    let idata ← message.pyIndex "interactive"
    let pair ←
      match idata with
      | .jobj ikvs =>
        match lookupKV ikvs "button_reply" with
        | some br => do
          let title ← br.pyIndex "title"
          .ok (title, JValue.jstr "button_reply")
        | none =>
          match lookupKV ikvs "list_reply" with
          | some lr => do
            let title ← lr.pyIndex "title"
            .ok (title, JValue.jstr "list_reply")
          | none =>
            match lookupKV ikvs "nfm_reply" with
            | some nfm => do
              let rj ← nfm.pyIndex "response_json"
              .ok (rj, JValue.jstr "flow_reply")
            | none => .ok (JValue.jstr "", JValue.jstr "")
      | _ => .error "TypeError"
    if pair.1.truthy then
      .ok [Effect.insertMsg { common with
            message := pair.1
            content_type := pair.2
            is_reply := true }]
    else
      .ok []
  else if message_type.eqStr "location" then do
    let location_data ← message.pyGetD "location" (.jobj [])
    let latitude ← location_data.pyGet "latitude"
    let longitude ← location_data.pyGet "longitude"
    let nm ← location_data.pyGet "name"
    let address ← location_data.pyGet "address"
    let t0 :=
      if latitude.truthy && longitude.truthy then
        "Lat: " ++ latitude.pyStr ++ ", Lon: " ++ longitude.pyStr
      else "Location received, but coordinates are missing."
    let t1 := if nm.truthy then t0 ++ "\nName: " ++ nm.pyStr else t0
    let t2 := if address.truthy then t1 ++ "\nAddress: " ++ address.pyStr else t1
    .ok [Effect.insertMsg { common with message := .jstr t2, content_type := .jstr "location" }]
  else if message_type.eqStr "contact" then do
    -- NOTE (source, webhook.py line 199): the branch matches the literal
    -- "contact", while the platform's array lives under message["contacts"].
    let cs ← message.pyIndex "contacts"
    match cs with
    | .jarr cl => do
      let entries ← cl.mapM contactEntry
      .ok [Effect.insertMsg { common with
            message := .jstr (String.intercalate " | " entries)
            content_type := .jstr "contact" }]
    | _ => .error "TypeError"
  else if message_type.eqStr "button" then do
    let b ← message.pyIndex "button"
    let t ← b.pyIndex "text"
    .ok [Effect.insertMsg { common with message := t, content_type := .jstr "button" }]
  else if message_type.eqStr "image" then
    .ok (handleMediaMessage message "image" env is_reply reply_to_message_id prof acct)
  else if message_type.eqStr "audio" then
    .ok (handleMediaMessage message "audio" env is_reply reply_to_message_id prof acct)
  else if message_type.eqStr "video" then
    .ok (handleMediaMessage message "video" env is_reply reply_to_message_id prof acct)
  else if message_type.eqStr "document" then
    .ok (handleMediaMessage message "document" env is_reply reply_to_message_id prof acct)
  else if message_type.eqStr "sticker" then
    .ok (handleMediaMessage message "sticker" env is_reply reply_to_message_id prof acct)
  else
    .ok [Effect.insertMsg { common with
          message := .jstr ("Unhandled type: " ++ message_type.pyStr)
          content_type := message_type }]

/-- Body of `handle_incoming_message` in webhook.py (lines 116-235): common
field extraction followed by the type dispatch. -/
def classifyW (message : JValue) (acct : String) (prof : JValue)
    (env : MediaEnv) : Except String (List Effect) := do
  let message_type ← message.pyGet "type"
  let ctx ← contextExtract message
  let f ← message.pyIndex "from"
  let mid ← message.pyIndex "id"
  let common : MsgDoc :=
    { from_ := f
      message_id := mid
      reply_to_message_id := ctx.2
      is_reply := ctx.1
      message := .jnull
      content_type := .jnull
      profile_name := prof
      whatsapp_account := acct
      attach := .jnull }
  dispatchW message message_type common env ctx.1 ctx.2 prof acct

/-- `handle_incoming_message` (webhook.py) with its enclosing try/except
(lines 237-240): exceptions are caught and logged; the log line itself
evaluates `message.get(...)`, which re-raises on a non-dict message. -/
def handleIncomingMessageW (message : JValue) (acct : String) (prof : JValue)
    (env : MediaEnv) : Except String (List Effect) :=
  match classifyW message acct prof env with
  | .ok effs => .ok effs
  | .error e =>
    match message with
    | .jobj _ => .ok [Effect.errorLog "WHATSAPP_WEBHOOK_MESSAGE_PROCESSING_ERROR"]
    | _ => .error e

/-- The per-message loop of `post` in webhook.py (lines 299-301): messages are
processed in array order; an exception escaping one handler aborts the rest of
the batch (the handler itself catches almost everything). -/
def processMessagesW (messages : List JValue) (acct : String) (prof : JValue)
    (env : MediaEnv) : Except String (List Effect) :=
  match messages with
  | [] => .ok []
  | m :: rest => do
    let e ← handleIncomingMessageW m acct prof env
    let es ← processMessagesW rest acct prof env
    .ok (e ++ es)

/-! ## Status reconciler (`update_message_status`) -/

/-- The stored "WhatsApp Message" columns touched (or claimed to be touched)
by status reconciliation. `delivered_at` / `read_at` come from the data model
of the spec (the doctype schema is not part of the sources); the reconciler
code never references them, which is exactly what the theorems record. -/
structure StoredMsg where
  status : JValue
  conversation_id : JValue
  delivered_at : JValue
  read_at : JValue
deriving Repr

/-- Observable effects of status reconciliation: a saved record (by document
name) or an error-log write. -/
inductive UEffect where
  | save : String → StoredMsg → UEffect
  | log : String → UEffect
deriving Repr

/-- webhook.py lines 345-347 / template_utils.py lines 327-329: extraction of
the first status entry's id, status and optional conversation id. -/
def statusExtract (data : JValue) : Except String (JValue × JValue × JValue) := do
  let statuses ← data.pyIndex "statuses"
  let s0 ← statuses.pyIndexNat 0
  let id ← s0.pyIndex "id"
  let status ← s0.pyIndex "status"
  let conv0 ← s0.pyGetD "conversation" (.jobj [])
  let conversation ← conv0.pyGet "id"
  .ok (id, status, conversation)

/-- The record store for reconciliation: `frappe.db.get_value` by external
message id followed by `frappe.get_doc` on the resulting name, merged into one
lookup returning the document name and its current columns. -/
def updateMessageStatusGoW (data : JValue)
    (db : JValue → Option (String × StoredMsg)) : Except String (List UEffect) := do
  let ids ← statusExtract data
  match db ids.1 with
  | some nd =>
    let doc := { nd.2 with status := ids.2.1 }
    let doc := if ids.2.2.truthy then { doc with conversation_id := ids.2.2 } else doc
    .ok [UEffect.save nd.1 doc]
  | none => .ok []

/-- `update_message_status` in webhook.py (lines 342-359): the lookup result is
guarded by `if name:` and the whole body sits in try/except, whose log line
itself evaluates `data.get('statuses', [{}])[0].get('id')`. -/
def updateMessageStatusW (data : JValue)
    (db : JValue → Option (String × StoredMsg)) : Except String (List UEffect) :=
  match updateMessageStatusGoW data db with
  | .ok effs => .ok effs
  | .error _ =>
    match (do
        let sts ← data.pyGetD "statuses" (.jarr [.jobj []])
        let s0 ← sts.pyIndexNat 0
        let _ ← s0.pyGet "id"
        (.ok () : Except String Unit)) with
    | .ok _ => .ok [UEffect.log "WHATSAPP_WEBHOOK_MESSAGE_STATUS_UPDATE_ERROR"]
    | .error e => .error e

/-- `update_message_status` in template_utils.py (lines 325-336): same
extraction, but no `if name:` guard and no try/except — when the lookup finds
nothing, `frappe.get_doc("WhatsApp Message", None)` raises and the exception
propagates out of `post`. -/
def updateMessageStatusT (data : JValue)
    (db : JValue → Option (String × StoredMsg)) : Except String (List UEffect) := do
  let ids ← statusExtract data
  match db ids.1 with
  | some nd =>
    let doc := { nd.2 with status := ids.2.1 }
    let doc := if ids.2.2.truthy then { doc with conversation_id := ids.2.2 } else doc
    .ok [UEffect.save nd.1 doc]
  | none => .error "DoesNotExistError"

/-! ## Outbound messages (`whatsapp_message.py`) -/

/-- Modelled from the spec: `format_number` lives in `frappe_whatsapp/utils`
(not among the provided sources). The spec only says outbound numbers are
normalized to a canonical numeric form; no claim depends on the mapping, so it
is modelled as the identity on the already-canonical numbers used here. -/
def format_number (n : String) : String := n

/-- The in-memory "WhatsApp Message" document during an outbound insert.
String fields use `""` for Python-falsy unset values. `template_json` holds
the decoded JSON of the field (`none` = field empty); the `json.loads` failure
branch (invalid JSON text) is not modelled — no claim exercises it. -/
structure WDoc where
  type : String
  message_id : String
  message_type : String
  template : String
  template_json : Option JValue
  to_ : String
  content_type : String
  message : String
  attach : String
  is_reply : Bool
  reply_to_message_id : String
  status : String
  whatsapp_account : String
deriving Repr

/-- Outbound collaborator calls made during an insert. -/
inductive Call where
  | post : JValue → Call
  | insertLog : String → Call
  | insertProfile : Call
deriving Repr

/-- Collaborator responses for the outbound path: the send API result (the
extracted `response["messages"][0]["id"]` on success), the structured error
envelope of the most recent failed exchange when available, the instance base
URL, whether a WhatsApp Profile already exists for the counterparty, and the
template payload built from the stored WhatsApp Templates doctype (its
parameter substitution is abstracted here — no claim exercises it). -/
structure SendEnv where
  sendResult : Except String String
  integrationError : Option (String × String)
  baseUrl : String
  profileExists : Bool
  templatePayload : JValue

/-- `WhatsAppMessage.notify` (lines 210-249): POST to the send API; on success
the returned message id is written onto the document; on failure the platform
error envelope is logged when available and a user-facing error is raised. -/
def notifyM (doc : WDoc) (env : SendEnv) (data : JValue) :
    WDoc × List Call × Option String :=
  match env.sendResult with
  | .ok mid => ({ doc with message_id := mid }, [Call.post data], none)
  | .error e =>
    match env.integrationError with
    | some me => (doc, [Call.post data, Call.insertLog "Text Message"], some me.1)
    | none => (doc, [Call.post data], some ("WhatsApp API Error: " ++ e))

/-- The payload built on the manual (non-template) branch of `before_insert`
(lines 56-100). A custom `template_json` is passed through with
`messaging_product` and `to` filled in only if absent; `.error` models the
TypeError Python raises when assigning into a decoded non-dict payload. -/
def manualPayload (doc : WDoc) (env : SendEnv) : Except String JValue :=
  match doc.template_json with
  | some data =>
    match data with
    | .jobj _ =>
      .ok ((data.objSetIfAbsent "messaging_product" (.jstr "whatsapp")).objSetIfAbsent
            "to" (.jstr (format_number doc.to_)))
    | _ => .error "TypeError"
  | none =>
    let link :=
      if doc.attach ≠ "" && !doc.attach.startsWith "http" then
        env.baseUrl ++ "/" ++ doc.attach
      else doc.attach
    let base := [("messaging_product", JValue.jstr "whatsapp"),
                 ("to", JValue.jstr (format_number doc.to_)),
                 ("type", JValue.jstr doc.content_type)]
    let base :=
      if doc.is_reply && doc.reply_to_message_id ≠ "" then
        base ++ [("context", JValue.jobj [("message_id", JValue.jstr doc.reply_to_message_id)])]
      else base
    let extra :=
      if doc.content_type = "document" ∨ doc.content_type = "image" ∨
          doc.content_type = "video" then
        [(doc.content_type.toLower, JValue.jobj
          [("link", JValue.jstr link), ("caption", JValue.jstr doc.message)])]
      else if doc.content_type = "reaction" then
        [("reaction", JValue.jobj
          [("message_id", JValue.jstr doc.reply_to_message_id),
           ("emoji", JValue.jstr doc.message)])]
      else if doc.content_type = "text" then
        [("text", JValue.jobj
          [("preview_url", JValue.jbool true), ("body", JValue.jstr doc.message)])]
      else if doc.content_type = "audio" then
        [("audio", JValue.jobj [("link", JValue.jstr link)])]
      else []
    .ok (JValue.jobj (base ++ extra))

/-- The `{"messaging_product": ..., "to": ...}` dict opening
`WhatsAppMessage.send_template` (lines 114-117). -/
def sendTemplateBase (doc : WDoc) : JValue :=
  .jobj [("messaging_product", .jstr "whatsapp"),
         ("to", .jstr (format_number doc.to_))]

/-- `WhatsAppMessage.send_template` (lines 112-208). Case 1 (a stored template
name) builds a template payload and sends it; Case 2 (custom JSON) merges the
decoded JSON into the base payload and, when its `type` decodes to `text`,
`location` or `contacts`, reclassifies the record as a Manual send and returns
without calling the send API; with neither input it throws. -/
def sendTemplateM (doc : WDoc) (env : SendEnv) : WDoc × List Call × Option String :=
  if doc.template ≠ "" then
    let data := JValue.jobj [("messaging_product", .jstr "whatsapp"),
        ("to", .jstr (format_number doc.to_)), ("type", .jstr "template"),
        ("template", env.templatePayload)]
    notifyM doc env data
  else
    match doc.template_json with
    | some tj =>
      match tj with
      | .jobj _ =>
        let data := (sendTemplateBase doc).dictUpdate tj
        let ty := data.getJ "type"
        if ty.eqStr "text" then
          ({ doc with message_type := "Manual", content_type := "text" }, [], none)
        else if ty.eqStr "location" then
          ({ doc with message_type := "Manual", content_type := "location" }, [], none)
        else if ty.eqStr "contacts" then
          ({ doc with message_type := "Manual", content_type := "contacts" }, [], none)
        else
          let data := if ty.truthy then data else data.objSetIfAbsent "type" (.jstr "template")
          notifyM doc env data
      | _ => (doc, [], some "TypeError")
    | none =>
      (doc, [], some "Either a Template name or valid template_json must be provided.")

/-- `WhatsAppMessage.create_whatsapp_profile` (lines 31-39): inserts a profile
record when none exists for the counterparty's number. -/
def createProfileM (doc : WDoc) (env : SendEnv) : WDoc × List Call :=
  if env.profileExists then (doc, []) else (doc, [Call.insertProfile])

/-- `WhatsAppMessage.before_insert` (lines 42-110): the Template branch runs
`send_template`; the manual branch builds its payload and wraps `notify` in
try/except, recording Success or Failed and re-raising on failure. A raised
exception propagates out of `before_insert` (third component `some ...`). -/
def beforeInsert (doc : WDoc) (env : SendEnv) : WDoc × List Call × Option String :=
  let step :=
    if doc.type = "Outgoing" ∧ doc.message_id = "" then
      if doc.message_type = "Template" then
        sendTemplateM doc env
      else
        match manualPayload doc env with
        | .error e => (doc, [], some e)
        | .ok data =>
          match notifyM doc env data with
          | (d, calls, none) => ({ d with status := "Success" }, calls, none)
          | (d, calls, some e) =>
            ({ d with status := "Failed" }, calls, some ("Failed to send message " ++ e))
    else (doc, [], none)
  match step with
  | (d, calls, some e) => (d, calls, some e)
  | (d, calls, none) =>
    let prof := createProfileM d env
    (prof.1, calls ++ prof.2, none)

/-- The persistence outcome of `doc.insert()`: the document is stored exactly
when `before_insert` raised nothing. -/
def runInsert (doc : WDoc) (env : SendEnv) : Option WDoc :=
  match beforeInsert doc env with
  | (d, _, none) => some d
  | (_, _, some _) => none

/-! ## Concrete payloads used by witnesses and counterexamples -/

/-- A media environment whose collaborators all succeed. -/
def mediaEnvOk : MediaEnv :=
  { metaStatus := 200
    metaBody := .jobj [("url", .jstr "http://cdn.example/img"), ("mime_type", .jstr "image/jpeg")]
    contentStatus := 200
    hashName := "h4shh4shh4"
    blobOk := true
    fileUrl := "/files/h4shh4shh4.jpeg" }

/-- An interactive message carrying none of the three recognized reply keys. -/
def c1msg : JValue :=
  .jobj [("from", .jstr "15550001111"), ("id", .jstr "wamid.I1"),
         ("type", .jstr "interactive"),
         ("interactive", .jobj [("type", .jstr "unknown_subtype")])]

/-- A reaction message that ALSO carries an outer context id, so the two
candidate reply targets differ. -/
def c2msg : JValue :=
  .jobj [("from", .jstr "15550001111"), ("id", .jstr "wamid.R1"),
         ("type", .jstr "reaction"),
         ("context", .jobj [("id", .jstr "wamid.outer-context")]),
         ("reaction", .jobj [("message_id", .jstr "wamid.inner-target"),
                             ("emoji", .jstr "+1")])]

/-- A message of type `"contact"` (the singular string the code dispatches on)
with one well-formed contact entry. -/
def c3msg : JValue :=
  .jobj [("from", .jstr "15550001111"), ("id", .jstr "wamid.C1"),
         ("type", .jstr "contact"),
         ("contacts", .jarr [.jobj
           [("name", .jobj [("formatted_name", .jstr "Alice")]),
            ("phones", .jarr [.jobj [("wa_id", .jstr "123")]])]])]

/-- An outbound manual text message document before insertion. -/
def c4doc : WDoc :=
  { type := "Outgoing"
    message_id := ""
    message_type := "Manual"
    template := ""
    template_json := none
    to_ := "15551234567"
    content_type := "text"
    message := "hi"
    attach := ""
    is_reply := false
    reply_to_message_id := ""
    status := ""
    whatsapp_account := "ACC-1" }

/-- A send environment whose POST fails with a transport error and exposes no
structured error envelope. -/
def sendEnvFail : SendEnv :=
  { sendResult := .error "connection error"
    integrationError := none
    baseUrl := "http://site.example"
    profileExists := true
    templatePayload := .jnull }

/-- A send environment whose POST succeeds. -/
def sendEnvOk : SendEnv := { sendEnvFail with sendResult := .ok "wamid.NEW1" }

/-- An inbound image message with a caption. -/
def c5msg : JValue :=
  .jobj [("from", .jstr "15550001111"), ("id", .jstr "wamid.M1"),
         ("type", .jstr "image"),
         ("image", .jobj [("id", .jstr "MEDIA-9"), ("caption", .jstr "pic")])]

/-- A delivery receipt carrying a millisecond timestamp and a conversation id
for a message the store knows. -/
def c6event : JValue :=
  .jobj [("statuses", .jarr [.jobj
    [("id", .jstr "wamid.X"), ("status", .jstr "delivered"),
     ("timestamp", .jstr "1700000000"),
     ("conversation", .jobj [("id", .jstr "conv-1")])]])]

/-- The stored message c6event refers to, with no timestamps recorded yet. -/
def c6stored : StoredMsg :=
  { status := .jstr "sent", conversation_id := .jnull
    delivered_at := .jnull, read_at := .jnull }

/-- A store holding exactly the message with external id `wamid.X`. -/
def c6db : JValue → Option (String × StoredMsg) := fun j =>
  match j with
  | .jstr "wamid.X" => some ("WAM-0001", c6stored)
  | _ => none

/-- A read receipt whose external message id matches nothing in the store. -/
def c7event : JValue :=
  .jobj [("statuses", .jarr [.jobj
    [("id", .jstr "wamid.unknown"), ("status", .jstr "read"),
     ("timestamp", .jstr "1700000999")]])]

/-- The empty message store. -/
def emptyDb : JValue → Option (String × StoredMsg) := fun _ => none

/-- A sibling text message processed after the media message in one batch. -/
def c8textMsg : JValue :=
  .jobj [("from", .jstr "15550001111"), ("id", .jstr "wamid.T1"),
         ("type", .jstr "text"), ("text", .jobj [("body", .jstr "hello")])]

/-- A media environment whose metadata GET returns 404. -/
def mediaEnv404 : MediaEnv := { mediaEnvOk with metaStatus := 404 }

/-- Custom JSON whose decoded `type` is `"text"`, as passed through
`template_json` on the template-or-custom send path. -/
def c9doc : WDoc :=
  { c4doc with
    message_type := "Template"
    template_json := some (.jobj [("type", .jstr "text"),
                                  ("text", .jobj [("body", .jstr "yo")])]) }

/-- An interactive button reply whose title is the empty string. -/
def c10msg : JValue :=
  .jobj [("from", .jstr "15550001111"), ("id", .jstr "wamid.I2"),
         ("type", .jstr "interactive"),
         ("interactive", .jobj [("button_reply",
            .jobj [("id", .jstr "btn-1"), ("title", .jstr "")])])]

/-! ## Counterexamples and closed theorems -/

/-- C1 counterexample: an interactive message carrying none of `button_reply`,
`list_reply`, `nfm_reply` produces an EMPTY effect trace — no record, but also
no logged warning, contrary to the claim that a warning is logged. -/
theorem c1_counterexample :
    handleIncomingMessageW c1msg "ACC-1" (.jstr "Ali") mediaEnvOk = .ok []
    ∧ ∀ es s, handleIncomingMessageW c1msg "ACC-1" (.jstr "Ali") mediaEnvOk = .ok es →
        Effect.errorLog s ∉ es := by
  refine ⟨rfl, ?_⟩
  intro es s h
  have h0 : handleIncomingMessageW c1msg "ACC-1" (.jstr "Ali") mediaEnvOk =
      .ok ([] : List Effect) := rfl
  rw [h0] at h
  cases h
  simp

/-- C3 counterexample: the classifier dispatches on the literal `"contact"`
(webhook.py line 199), a type absent from the claim's recognized list, so a
`"contact"` message — which the claim says must yield an "unhandled type"
record — instead yields a contact-card record whose body is the pipe-joined
contact rendering, not an "Unhandled type" marker. -/
theorem c3_counterexample :
    handleIncomingMessageW c3msg "ACC-1" (.jstr "Ali") mediaEnvOk =
      .ok [Effect.insertMsg
        { from_ := .jstr "15550001111", message_id := .jstr "wamid.C1",
          reply_to_message_id := .jnull, is_reply := false,
          message := .jstr "Alice (123)", content_type := .jstr "contact",
          profile_name := .jstr "Ali", whatsapp_account := "ACC-1",
          attach := .jnull }]
    ∧ JValue.jstr "Alice (123)" ≠ .jstr "Unhandled type: contact" := by
  refine ⟨rfl, ?_⟩
  simp

/-- C4 counterexample: when the send POST fails, `before_insert` sets the
in-memory status to Failed and re-raises, so the insert aborts and NO record
is persisted — contradicting the claim that the record is persisted regardless
of the send outcome. -/
theorem c4_counterexample :
    runInsert c4doc sendEnvFail = none
    ∧ (beforeInsert c4doc sendEnvFail).1.status = "Failed"
    ∧ (beforeInsert c4doc sendEnvFail).2.2.isSome = true := by
  exact ⟨rfl, rfl, rfl⟩

/-- C6 counterexample: a `delivered` receipt carrying a millisecond timestamp
is reconciled without ever touching `delivered_at`/`read_at` — the saved
record keeps them unset, contradicting the claimed timestamp derivation. -/
theorem c6_counterexample :
    updateMessageStatusW c6event c6db =
      .ok [UEffect.save "WAM-0001"
        { status := .jstr "delivered", conversation_id := .jstr "conv-1",
          delivered_at := .jnull, read_at := .jnull }] := rfl

/-- C7: reconciling a receipt whose message id matches nothing is a silent
no-op in webhook.py, exactly as the claim states; the duplicated copy in
template_utils.py instead feeds the failed lookup into `frappe.get_doc` and
raises, which is the code bug the claim exposes. -/
theorem c7_unknown_id_reconciliation :
    updateMessageStatusW c7event emptyDb = .ok []
    ∧ updateMessageStatusT c7event emptyDb = .error "DoesNotExistError" := by
  exact ⟨rfl, rfl⟩

/-- C8 counterexample: a batch of one image message (metadata GET answers 404)
and one text message yields exactly the text insert — no blob write, and ALSO
no error-log effect, contradicting the claim that the metadata failure is
logged. -/
theorem c8_counterexample :
    processMessagesW [c5msg, c8textMsg] "ACC-1" (.jstr "Ali") mediaEnv404 =
      .ok [Effect.insertMsg
        { from_ := .jstr "15550001111", message_id := .jstr "wamid.T1",
          reply_to_message_id := .jnull, is_reply := false,
          message := .jstr "hello", content_type := .jstr "text",
          profile_name := .jstr "Ali", whatsapp_account := "ACC-1",
          attach := .jnull }]
    ∧ ∀ es s, processMessagesW [c5msg, c8textMsg] "ACC-1" (.jstr "Ali") mediaEnv404 =
        .ok es → Effect.errorLog s ∉ es
    ∧ ∀ fn, Effect.blobWrite fn ∉ es := by
  refine ⟨rfl, ?_⟩
  intro es s h
  have h0 : processMessagesW [c5msg, c8textMsg] "ACC-1" (.jstr "Ali") mediaEnv404 =
      .ok [Effect.insertMsg
        { from_ := .jstr "15550001111", message_id := .jstr "wamid.T1",
          reply_to_message_id := .jnull, is_reply := false,
          message := .jstr "hello", content_type := .jstr "text",
          profile_name := .jstr "Ali", whatsapp_account := "ACC-1",
          attach := .jnull }] := rfl
  rw [h0] at h
  cases h
  constructor
  · simp
  · intro fn
    simp

/-! ## General theorems -/

/-- Reduction lemma: binding a successful `Except` computation applies the
continuation. -/
theorem bindOk {α β : Type} (a : α) (f : α → Except String β) :
    (Except.ok a >>= f) = f a := rfl

/-- Reduction lemma: binding a failed `Except` computation propagates the
error. -/
theorem bindErr {α β : Type} (e : String) (f : α → Except String β) :
    ((Except.error e : Except String α) >>= f) = Except.error e := rfl

/-- C2: every reaction message is classified into exactly one record whose
`is_reply` is forced true and whose `reply_to_message_id` is the `message_id`
carried INSIDE the reaction object — the reply target extracted from the outer
context (`rto`) is overridden, whatever it was. -/
theorem c2_reaction_reply_target (message : JValue) (acct : String)
    (prof : JValue) (env : MediaEnv) (b : Bool) (rto f mid r emoji rmid : JValue)
    (hty : message.pyGet "type" = .ok (.jstr "reaction"))
    (hctx : contextExtract message = .ok (b, rto))
    (hf : message.pyIndex "from" = .ok f)
    (hm : message.pyIndex "id" = .ok mid)
    (hr : message.pyIndex "reaction" = .ok r)
    (he : r.pyIndex "emoji" = .ok emoji)
    (hrm : r.pyIndex "message_id" = .ok rmid) :
    handleIncomingMessageW message acct prof env =
      .ok [Effect.insertMsg
        { from_ := f, message_id := mid, reply_to_message_id := rmid,
          is_reply := true, message := emoji, content_type := .jstr "reaction",
          profile_name := prof, whatsapp_account := acct, attach := .jnull }] := by
  simp only [handleIncomingMessageW, classifyW, dispatchW, hty, hctx, hf, hm,
    hr, he, hrm, bindOk]
  rfl

/-- C2 witness: a concrete reaction message that ALSO carries an outer
`context.id` (`wamid.outer-context`); the stored reply target is the inner
`wamid.inner-target`, not the context id. -/
theorem c2_reaction_reply_target_witness :
    handleIncomingMessageW c2msg "ACC-1" (.jstr "Ali") mediaEnvOk =
      .ok [Effect.insertMsg
        { from_ := .jstr "15550001111", message_id := .jstr "wamid.R1",
          reply_to_message_id := .jstr "wamid.inner-target", is_reply := true,
          message := .jstr "+1", content_type := .jstr "reaction",
          profile_name := .jstr "Ali", whatsapp_account := "ACC-1",
          attach := .jnull }]
    ∧ JValue.jstr "wamid.inner-target" ≠ .jstr "wamid.outer-context" := by
  constructor
  · exact c2_reaction_reply_target c2msg "ACC-1" (.jstr "Ali") mediaEnvOk
      true (.jstr "wamid.outer-context") (.jstr "15550001111")
      (.jstr "wamid.R1")
      (.jobj [("message_id", .jstr "wamid.inner-target"), ("emoji", .jstr "+1")])
      (.jstr "+1") (.jstr "wamid.inner-target") rfl rfl rfl rfl rfl rfl rfl
  · simp

/-- C1 (amended): an interactive message sub-dispatches on the presence of
`button_reply`, then `list_reply`, then `nfm_reply` (first match wins).
When the extracted title (or `response_json`) is truthy, exactly one record is
inserted with that body, the matching content_type
(`button_reply` / `list_reply` / `flow_reply`) and `is_reply` forced true.
When none of the three keys is present, no record is created and — amending
the claim — nothing is logged: the message is dropped silently. -/
theorem c1_interactive_subdispatch (message : JValue) (acct : String)
    (prof : JValue) (env : MediaEnv) (ikvs : List (String × JValue)) (b : Bool)
    (rto f mid : JValue)
    (hty : message.pyGet "type" = .ok (.jstr "interactive"))
    (hctx : contextExtract message = .ok (b, rto))
    (hf : message.pyIndex "from" = .ok f)
    (hm : message.pyIndex "id" = .ok mid)
    (hi : message.pyIndex "interactive" = .ok (.jobj ikvs)) :
    (∀ br title, lookupKV ikvs "button_reply" = some br →
      br.pyIndex "title" = .ok title → title.truthy = true →
      handleIncomingMessageW message acct prof env =
        .ok [Effect.insertMsg
          { from_ := f, message_id := mid, reply_to_message_id := rto,
            is_reply := true, message := title,
            content_type := .jstr "button_reply", profile_name := prof,
            whatsapp_account := acct, attach := .jnull }])
    ∧ (∀ lr title, lookupKV ikvs "button_reply" = none →
      lookupKV ikvs "list_reply" = some lr →
      lr.pyIndex "title" = .ok title → title.truthy = true →
      handleIncomingMessageW message acct prof env =
        .ok [Effect.insertMsg
          { from_ := f, message_id := mid, reply_to_message_id := rto,
            is_reply := true, message := title,
            content_type := .jstr "list_reply", profile_name := prof,
            whatsapp_account := acct, attach := .jnull }])
    ∧ (∀ nfm rj, lookupKV ikvs "button_reply" = none →
      lookupKV ikvs "list_reply" = none →
      lookupKV ikvs "nfm_reply" = some nfm →
      nfm.pyIndex "response_json" = .ok rj → rj.truthy = true →
      handleIncomingMessageW message acct prof env =
        .ok [Effect.insertMsg
          { from_ := f, message_id := mid, reply_to_message_id := rto,
            is_reply := true, message := rj,
            content_type := .jstr "flow_reply", profile_name := prof,
            whatsapp_account := acct, attach := .jnull }])
    ∧ (lookupKV ikvs "button_reply" = none →
      lookupKV ikvs "list_reply" = none →
      lookupKV ikvs "nfm_reply" = none →
      handleIncomingMessageW message acct prof env = .ok []) := by
  refine ⟨?_, ?_, ?_, ?_⟩
  · intro br title hbr htitle htr
    simp only [handleIncomingMessageW, classifyW, dispatchW, hty, hctx, hf, hm,
      hi, hbr, htitle, bindOk]
    rw [show (JValue.eqStr (.jstr "interactive") "text") = false from rfl]
    simp only [Bool.false_eq_true, if_false, if_true,
      show (JValue.eqStr (.jstr "interactive") "reaction") = false from rfl,
      show (JValue.eqStr (.jstr "interactive") "interactive") = true from rfl,
      htr]
  · intro lr title hbr hlr htitle htr
    simp only [handleIncomingMessageW, classifyW, dispatchW, hty, hctx, hf, hm,
      hi, hbr, hlr, htitle, bindOk]
    simp only [Bool.false_eq_true, if_false, if_true,
      show (JValue.eqStr (.jstr "interactive") "text") = false from rfl,
      show (JValue.eqStr (.jstr "interactive") "reaction") = false from rfl,
      show (JValue.eqStr (.jstr "interactive") "interactive") = true from rfl,
      htr]
  · intro nfm rj hbr hlr hnfm hrj htr
    simp only [handleIncomingMessageW, classifyW, dispatchW, hty, hctx, hf, hm,
      hi, hbr, hlr, hnfm, hrj, bindOk]
    simp only [Bool.false_eq_true, if_false, if_true,
      show (JValue.eqStr (.jstr "interactive") "text") = false from rfl,
      show (JValue.eqStr (.jstr "interactive") "reaction") = false from rfl,
      show (JValue.eqStr (.jstr "interactive") "interactive") = true from rfl,
      htr]
  · intro hbr hlr hnfm
    simp only [handleIncomingMessageW, classifyW, dispatchW, hty, hctx, hf, hm,
      hi, hbr, hlr, hnfm, bindOk]
    rfl

/-- C1 witness: a concrete button reply with nonempty title is stored as a
`button_reply` record with `is_reply = true`. -/
theorem c1_interactive_subdispatch_witness :
    handleIncomingMessageW
      (.jobj [("from", .jstr "15550001111"), ("id", .jstr "wamid.I3"),
              ("type", .jstr "interactive"),
              ("interactive", .jobj [("button_reply",
                .jobj [("id", .jstr "b1"), ("title", .jstr "Yes")])])])
      "ACC-1" (.jstr "Ali") mediaEnvOk =
      .ok [Effect.insertMsg
        { from_ := .jstr "15550001111", message_id := .jstr "wamid.I3",
          reply_to_message_id := .jnull, is_reply := true,
          message := .jstr "Yes", content_type := .jstr "button_reply",
          profile_name := .jstr "Ali", whatsapp_account := "ACC-1",
          attach := .jnull }] := by
  exact (c1_interactive_subdispatch
    (.jobj [("from", .jstr "15550001111"), ("id", .jstr "wamid.I3"),
            ("type", .jstr "interactive"),
            ("interactive", .jobj [("button_reply",
              .jobj [("id", .jstr "b1"), ("title", .jstr "Yes")])])])
    "ACC-1" (.jstr "Ali") mediaEnvOk
    [("button_reply", .jobj [("id", .jstr "b1"), ("title", .jstr "Yes")])]
    false .jnull (.jstr "15550001111") (.jstr "wamid.I3")
    rfl rfl rfl rfl rfl).1
    (.jobj [("id", .jstr "b1"), ("title", .jstr "Yes")]) (.jstr "Yes")
    rfl rfl rfl

/-- C10: an interactive message whose first-matching sub-key
(`button_reply` / `list_reply` / `nfm_reply`, in that priority order) extracts
an empty string is silently dropped: record creation is gated on the
truthiness of the extracted text (`if message_text:`), not on key presence. -/
theorem c10_empty_interactive_dropped (message : JValue) (acct : String)
    (prof : JValue) (env : MediaEnv) (ikvs : List (String × JValue)) (b : Bool)
    (rto f mid : JValue)
    (hty : message.pyGet "type" = .ok (.jstr "interactive"))
    (hctx : contextExtract message = .ok (b, rto))
    (hf : message.pyIndex "from" = .ok f)
    (hm : message.pyIndex "id" = .ok mid)
    (hi : message.pyIndex "interactive" = .ok (.jobj ikvs))
    (hdisp :
      (∃ br, lookupKV ikvs "button_reply" = some br
        ∧ br.pyIndex "title" = .ok (.jstr ""))
      ∨ (lookupKV ikvs "button_reply" = none
        ∧ ∃ lr, lookupKV ikvs "list_reply" = some lr
          ∧ lr.pyIndex "title" = .ok (.jstr ""))
      ∨ (lookupKV ikvs "button_reply" = none
        ∧ lookupKV ikvs "list_reply" = none
        ∧ ∃ nfm, lookupKV ikvs "nfm_reply" = some nfm
          ∧ nfm.pyIndex "response_json" = .ok (.jstr ""))) :
    handleIncomingMessageW message acct prof env = .ok [] := by
  rcases hdisp with ⟨br, hbr, htitle⟩ | ⟨hbr, lr, hlr, htitle⟩ |
    ⟨hbr, hlr, nfm, hnfm, hrj⟩
  · simp only [handleIncomingMessageW, classifyW, dispatchW, hty, hctx, hf, hm,
      hi, hbr, htitle, bindOk]
    rfl
  · simp only [handleIncomingMessageW, classifyW, dispatchW, hty, hctx, hf, hm,
      hi, hbr, hlr, htitle, bindOk]
    rfl
  · simp only [handleIncomingMessageW, classifyW, dispatchW, hty, hctx, hf, hm,
      hi, hbr, hlr, hnfm, hrj, bindOk]
    rfl

/-- C10 witness: a button reply whose title is the empty string yields no
record. -/
theorem c10_empty_interactive_dropped_witness :
    handleIncomingMessageW c10msg "ACC-1" (.jstr "Ali") mediaEnvOk = .ok [] := by
  exact c10_empty_interactive_dropped c10msg "ACC-1" (.jstr "Ali") mediaEnvOk
    [("button_reply", .jobj [("id", .jstr "btn-1"), ("title", .jstr "")])]
    false .jnull (.jstr "15550001111") (.jstr "wamid.I2")
    rfl rfl rfl rfl rfl
    (Or.inl ⟨.jobj [("id", .jstr "btn-1"), ("title", .jstr "")], rfl, rfl⟩)

/-- C3 (amended): the fallback arm of the webhook.py classifier fires for
every `type` outside the set it actually dispatches on — which contains the
SINGULAR `"contact"`, not the claim's `"contacts"` — and then never raises and
inserts exactly one record whose content_type is the raw type and whose body
is the literal `"Unhandled type: {type}"` marker. (The template_utils.py
duplicate instead takes its fallback body from `message[type][type]` when that
nested key exists, so the marker guarantee is amended to the webhook.py
handler.) -/
theorem c3_unrecognized_type_marker (message : JValue) (acct : String)
    (prof : JValue) (env : MediaEnv) (t : String) (b : Bool) (rto f mid : JValue)
    (hty : message.pyGet "type" = .ok (.jstr t))
    (hnot : t ∉ (["text", "reaction", "interactive", "location", "contact",
      "button", "image", "audio", "video", "document", "sticker"] : List String))
    (hctx : contextExtract message = .ok (b, rto))
    (hf : message.pyIndex "from" = .ok f)
    (hm : message.pyIndex "id" = .ok mid) :
    handleIncomingMessageW message acct prof env =
      .ok [Effect.insertMsg
        { from_ := f, message_id := mid, reply_to_message_id := rto,
          is_reply := b, message := .jstr ("Unhandled type: " ++ t),
          content_type := .jstr t, profile_name := prof,
          whatsapp_account := acct, attach := .jnull }] := by
  simp only [List.mem_cons, List.not_mem_nil, or_false, not_or] at hnot
  obtain ⟨h1, h2, h3, h4, h5, h6, h7, h8, h9, h10, h11⟩ := hnot
  simp only [handleIncomingMessageW, classifyW, dispatchW, hty, hctx, hf, hm,
    bindOk, JValue.eqStr, JValue.pyStr,
    decide_eq_false h1, decide_eq_false h2, decide_eq_false h3,
    decide_eq_false h4, decide_eq_false h5, decide_eq_false h6,
    decide_eq_false h7, decide_eq_false h8, decide_eq_false h9,
    decide_eq_false h10, decide_eq_false h11,
    Bool.false_eq_true, if_false]

/-- C3 witness: a message of the future type `"order"` degrades to a marker
record. -/
theorem c3_unrecognized_type_marker_witness :
    handleIncomingMessageW
      (.jobj [("from", .jstr "15550001111"), ("id", .jstr "wamid.O1"),
              ("type", .jstr "order"), ("order", .jobj [])])
      "ACC-1" (.jstr "Ali") mediaEnvOk =
      .ok [Effect.insertMsg
        { from_ := .jstr "15550001111", message_id := .jstr "wamid.O1",
          reply_to_message_id := .jnull, is_reply := false,
          message := .jstr "Unhandled type: order", content_type := .jstr "order",
          profile_name := .jstr "Ali", whatsapp_account := "ACC-1",
          attach := .jnull }] := by
  exact c3_unrecognized_type_marker
    (.jobj [("from", .jstr "15550001111"), ("id", .jstr "wamid.O1"),
            ("type", .jstr "order"), ("order", .jobj [])])
    "ACC-1" (.jstr "Ali") mediaEnvOk "order" false .jnull
    (.jstr "15550001111") (.jstr "wamid.O1") rfl (by decide) rfl rfl rfl

/-- C5: the media pipeline is two-phase. Whatever the collaborator outcomes:
any inserted record carries the text placeholder (caption, or the
`/files/{generated name}` slug) and no attachment; a blob write is always
immediately preceded by that placeholder insert; the attachment URL is patched
only when the blob write succeeded, as the final step after it; and a failure
of the metadata or content fetch produces no record at all — so no failure at
the metadata-fetch, content-fetch or blob-store step leaves a half-populated
record. -/
theorem c5_media_two_phase (message : JValue) (mt : String) (env : MediaEnv)
    (irep : Bool) (rto prof : JValue) (acct : String)
    (mobj midv caption mime f mid : JValue) (u ext : String)
    (h1 : message.pyIndex mt = .ok mobj)
    (h2 : mobj.pyIndex "id" = .ok midv)
    (h3 : mobj.pyGet "caption" = .ok caption)
    (hu : env.metaBody.pyGet "url" = .ok (.jstr u))
    (hmime : env.metaBody.pyGet "mime_type" = .ok mime)
    (hext : fileExtension mime = .ok ext)
    (hf : message.pyIndex "from" = .ok f)
    (hm : message.pyIndex "id" = .ok mid) :
    (∀ d, Effect.insertMsg d ∈ handleMediaMessage message mt env irep rto prof acct →
      d.message = (if caption.truthy then caption
        else .jstr ("/files/" ++ (env.hashName ++ "." ++ ext)))
      ∧ d.attach = .jnull)
    ∧ (∀ fn, Effect.blobWrite fn ∈ handleMediaMessage message mt env irep rto prof acct →
      ∃ d rest, handleMediaMessage message mt env irep rto prof acct =
        Effect.insertMsg d :: Effect.blobWrite fn :: rest)
    ∧ (∀ d, Effect.patchAttach d ∈ handleMediaMessage message mt env irep rto prof acct →
      env.blobOk = true ∧ d.attach = .jstr env.fileUrl
      ∧ ∃ d0, handleMediaMessage message mt env irep rto prof acct =
        [Effect.insertMsg d0, Effect.blobWrite (env.hashName ++ "." ++ ext),
         Effect.patchAttach d])
    ∧ ((env.metaStatus ≠ 200 ∨ env.contentStatus ≠ 200) →
      handleMediaMessage message mt env irep rto prof acct = []) := by
  by_cases hMS : env.metaStatus = 200
  · by_cases hCS : env.contentStatus = 200
    · by_cases hB : env.blobOk = true
      · have htr : handleMediaMessage message mt env irep rto prof acct =
            [Effect.insertMsg
              { from_ := f, message_id := mid, reply_to_message_id := rto,
                is_reply := irep,
                message := (if caption.truthy then caption
                  else .jstr ("/files/" ++ (env.hashName ++ "." ++ ext))),
                content_type := .jstr mt, profile_name := prof,
                whatsapp_account := acct, attach := .jnull },
             Effect.blobWrite (env.hashName ++ "." ++ ext),
             Effect.patchAttach
              { from_ := f, message_id := mid, reply_to_message_id := rto,
                is_reply := irep,
                message := (if caption.truthy then caption
                  else .jstr ("/files/" ++ (env.hashName ++ "." ++ ext))),
                content_type := .jstr mt, profile_name := prof,
                whatsapp_account := acct, attach := .jstr env.fileUrl }] := by
          simp only [handleMediaMessage, handleMediaMessageGo, h1, h2, h3, hu,
            hmime, hext, hf, hm, hMS, hCS, hB, bindOk, if_true]
        refine ⟨?_, ?_, ?_, ?_⟩
        · intro d hd
          rw [htr] at hd
          simp only [List.mem_cons, List.not_mem_nil, or_false,
            Effect.insertMsg.injEq, reduceCtorEq] at hd
          subst hd
          exact ⟨rfl, rfl⟩
        · intro fn hfn
          rw [htr] at hfn
          simp only [List.mem_cons, List.not_mem_nil, or_false, false_or,
            Effect.blobWrite.injEq, reduceCtorEq] at hfn
          subst hfn
          exact ⟨_, _, htr⟩
        · intro d hd
          rw [htr] at hd
          simp only [List.mem_cons, List.not_mem_nil, or_false, false_or,
            Effect.patchAttach.injEq, reduceCtorEq] at hd
          subst hd
          exact ⟨hB, rfl, _, htr⟩
        · intro hfail
          rcases hfail with h | h
          · exact absurd hMS h
          · exact absurd hCS h
      · have htr : handleMediaMessage message mt env irep rto prof acct =
            [Effect.insertMsg
              { from_ := f, message_id := mid, reply_to_message_id := rto,
                is_reply := irep,
                message := (if caption.truthy then caption
                  else .jstr ("/files/" ++ (env.hashName ++ "." ++ ext))),
                content_type := .jstr mt, profile_name := prof,
                whatsapp_account := acct, attach := .jnull },
             Effect.errorLog "WHATSAPP_WEBHOOK_MEDIA_ERROR"] := by
          rw [Bool.not_eq_true] at hB
          simp only [handleMediaMessage, handleMediaMessageGo, h1, h2, h3, hu,
            hmime, hext, hf, hm, hMS, hCS, hB, bindOk, Bool.false_eq_true,
            if_false]
          try rfl
        refine ⟨?_, ?_, ?_, ?_⟩
        · intro d hd
          rw [htr] at hd
          simp only [List.mem_cons, List.not_mem_nil, or_false,
            Effect.insertMsg.injEq, reduceCtorEq] at hd
          subst hd
          exact ⟨rfl, rfl⟩
        · intro fn hfn
          rw [htr] at hfn
          simp at hfn
        · intro d hd
          rw [htr] at hd
          simp at hd
        · intro hfail
          rcases hfail with h | h
          · exact absurd hMS h
          · exact absurd hCS h
    · have htr : handleMediaMessage message mt env irep rto prof acct = [] := by
        simp only [handleMediaMessage, handleMediaMessageGo, h1, h2, h3, hu,
          hmime, hext, hMS, bindOk, if_true, if_neg hCS]
        try rfl
      refine ⟨?_, ?_, ?_, fun _ => htr⟩
      · intro d hd
        rw [htr] at hd
        simp at hd
      · intro fn hfn
        rw [htr] at hfn
        simp at hfn
      · intro d hd
        rw [htr] at hd
        simp at hd
  · have htr : handleMediaMessage message mt env irep rto prof acct = [] := by
      simp only [handleMediaMessage, handleMediaMessageGo, h1, h2, h3, bindOk,
        if_neg hMS]
      try rfl
    refine ⟨?_, ?_, ?_, fun _ => htr⟩
    · intro d hd
      rw [htr] at hd
      simp at hd
    · intro fn hfn
      rw [htr] at hfn
      simp at hfn
    · intro d hd
      rw [htr] at hd
      simp at hd

/-- C5 witness: on the concrete image message, a failed metadata GET leaves no
record at all (the no-half-populated-record clause at a concrete input). -/
theorem c5_media_two_phase_witness :
    handleMediaMessage c5msg "image" mediaEnv404 false .jnull (.jstr "Ali") "ACC-1" = [] :=
  (c5_media_two_phase c5msg "image" mediaEnv404 false .jnull (.jstr "Ali") "ACC-1"
    (.jobj [("id", .jstr "MEDIA-9"), ("caption", .jstr "pic")]) (.jstr "MEDIA-9")
    (.jstr "pic") (.jstr "image/jpeg") (.jstr "15550001111") (.jstr "wamid.M1")
    "http://cdn.example/img" "jpeg"
    rfl rfl rfl rfl rfl rfl rfl rfl).2.2.2 (Or.inl (by decide))

/-- C6 (amended): a status event whose external message id matches a stored
message is reconciled by setting `status` to the event's status and
`conversation_id` when the event carries one; `delivered_at` and `read_at` are
left untouched — the reconciler performs no timestamp conversion at all. -/
theorem c6_status_reconciliation (data : JValue)
    (db : JValue → Option (String × StoredMsg)) (id status conversation : JValue)
    (name : String) (doc : StoredMsg)
    (hx : statusExtract data = .ok (id, status, conversation))
    (hdb : db id = some (name, doc)) :
    ∃ doc2, updateMessageStatusW data db = .ok [UEffect.save name doc2]
      ∧ doc2.status = status
      ∧ (conversation.truthy = true → doc2.conversation_id = conversation)
      ∧ (conversation.truthy = false → doc2.conversation_id = doc.conversation_id)
      ∧ doc2.delivered_at = doc.delivered_at
      ∧ doc2.read_at = doc.read_at := by
  by_cases hc : conversation.truthy = true
  · refine ⟨{ doc with status := status, conversation_id := conversation },
      ?_, rfl, fun _ => rfl, ?_, rfl, rfl⟩
    · simp only [updateMessageStatusW, updateMessageStatusGoW, hx, hdb, bindOk,
        hc, if_true]
    · intro hcf
      rw [hc] at hcf
      cases hcf
  · rw [Bool.not_eq_true] at hc
    refine ⟨{ doc with status := status }, ?_, rfl, ?_, fun _ => rfl, rfl, rfl⟩
    · simp only [updateMessageStatusW, updateMessageStatusGoW, hx, hdb, bindOk,
        hc, Bool.false_eq_true, if_false]
    · intro hct
      rw [hc] at hct
      cases hct

/-- C6 witness: the amended reconciliation at the concrete delivered event and
matching store. -/
theorem c6_status_reconciliation_witness :
    ∃ doc2, updateMessageStatusW c6event c6db = .ok [UEffect.save "WAM-0001" doc2]
      ∧ doc2.status = .jstr "delivered"
      ∧ ((JValue.jstr "conv-1").truthy = true → doc2.conversation_id = .jstr "conv-1")
      ∧ ((JValue.jstr "conv-1").truthy = false → doc2.conversation_id = c6stored.conversation_id)
      ∧ doc2.delivered_at = c6stored.delivered_at
      ∧ doc2.read_at = c6stored.read_at :=
  c6_status_reconciliation c6event c6db (.jstr "wamid.X") (.jstr "delivered")
    (.jstr "conv-1") "WAM-0001" c6stored rfl rfl

/-- C8 (amended): in a batch of one media message and one text message, a
non-200 media metadata GET produces NO effect for the media message — no blob
write, and (amending the claim) also no error log: the failure is silently
skipped — while the sibling text message is still classified and persisted,
so the whole batch trace is exactly the text insert. -/
theorem c8_batch_isolation (mmsg tmsg : JValue) (acct : String)
    (prof : JValue) (env : MediaEnv) (mt : String) (bm bt : Bool)
    (rm rt fm midm mobj midv cap ft midt tobj body : JValue)
    (hty_m : mmsg.pyGet "type" = .ok (.jstr mt))
    (hmt : mt = "image" ∨ mt = "audio" ∨ mt = "video" ∨ mt = "document" ∨
      mt = "sticker")
    (hctx_m : contextExtract mmsg = .ok (bm, rm))
    (hf_m : mmsg.pyIndex "from" = .ok fm)
    (hm_m : mmsg.pyIndex "id" = .ok midm)
    (hobj : mmsg.pyIndex mt = .ok mobj)
    (hid : mobj.pyIndex "id" = .ok midv)
    (hcap : mobj.pyGet "caption" = .ok cap)
    (henv : env.metaStatus ≠ 200)
    (hty_t : tmsg.pyGet "type" = .ok (.jstr "text"))
    (hctx_t : contextExtract tmsg = .ok (bt, rt))
    (hf_t : tmsg.pyIndex "from" = .ok ft)
    (hm_t : tmsg.pyIndex "id" = .ok midt)
    (htext : tmsg.pyIndex "text" = .ok tobj)
    (hbody : tobj.pyIndex "body" = .ok body) :
    processMessagesW [mmsg, tmsg] acct prof env =
      .ok [Effect.insertMsg
        { from_ := ft, message_id := midt, reply_to_message_id := rt,
          is_reply := bt, message := body, content_type := .jstr "text",
          profile_name := prof, whatsapp_account := acct, attach := .jnull }] := by
  have hmedia : handleIncomingMessageW mmsg acct prof env = .ok [] := by
    rcases hmt with rfl | rfl | rfl | rfl | rfl <;>
    · simp only [handleIncomingMessageW, classifyW, dispatchW, hty_m, hctx_m,
        hf_m, hm_m, bindOk, handleMediaMessage, handleMediaMessageGo, hobj,
        hid, hcap, if_neg henv]
      rfl
  have htxt : handleIncomingMessageW tmsg acct prof env =
      .ok [Effect.insertMsg
        { from_ := ft, message_id := midt, reply_to_message_id := rt,
          is_reply := bt, message := body, content_type := .jstr "text",
          profile_name := prof, whatsapp_account := acct, attach := .jnull }] := by
    simp only [handleIncomingMessageW, classifyW, dispatchW, hty_t, hctx_t,
      hf_t, hm_t, htext, hbody, bindOk]
    rfl
  simp only [processMessagesW, hmedia, htxt, bindOk, List.nil_append,
    List.append_nil]

/-- C8 witness: the amended batch behavior at the concrete image + text batch
with a 404 metadata response. -/
theorem c8_batch_isolation_witness :
    processMessagesW [c5msg, c8textMsg] "ACC-1" (.jstr "Ali") mediaEnv404 =
      .ok [Effect.insertMsg
        { from_ := .jstr "15550001111", message_id := .jstr "wamid.T1",
          reply_to_message_id := .jnull, is_reply := false,
          message := .jstr "hello", content_type := .jstr "text",
          profile_name := .jstr "Ali", whatsapp_account := "ACC-1",
          attach := .jnull }] :=
  c8_batch_isolation c5msg c8textMsg "ACC-1" (.jstr "Ali") mediaEnv404 "image"
    false false .jnull .jnull (.jstr "15550001111") (.jstr "wamid.M1")
    (.jobj [("id", .jstr "MEDIA-9"), ("caption", .jstr "pic")]) (.jstr "MEDIA-9")
    (.jstr "pic") (.jstr "15550001111") (.jstr "wamid.T1")
    (.jobj [("body", .jstr "hello")]) (.jstr "hello")
    rfl (Or.inl rfl) rfl rfl rfl rfl rfl rfl (by decide)
    rfl rfl rfl rfl rfl rfl

/-- C4 (amended): for manual (non-template) outbound sends with no pending
message id, a failed send POST sets the in-memory record status to Failed and
raises a user-facing error, and that raised error ABORTS the insert, so the
record is persisted only when the send succeeds — in which case it is stored
with status Success and the returned message id. -/
theorem c4_send_failure_not_persisted (doc : WDoc) (env : SendEnv)
    (h1 : doc.type = "Outgoing") (h2 : doc.message_id = "")
    (h3 : doc.message_type ≠ "Template")
    (h4 : doc.template_json = none ∨ ∃ kvs, doc.template_json = some (.jobj kvs)) :
    (∀ e, env.sendResult = .error e →
      (beforeInsert doc env).1.status = "Failed"
      ∧ (beforeInsert doc env).2.2.isSome = true
      ∧ runInsert doc env = none)
    ∧ (∀ mid, env.sendResult = .ok mid →
      runInsert doc env =
        some { doc with message_id := mid, status := "Success" }) := by
  have hcond : doc.type = "Outgoing" ∧ doc.message_id = "" := ⟨h1, h2⟩
  constructor
  · intro e herr
    rcases h4 with hj | ⟨kvs, hj⟩ <;>
      rcases hie : env.integrationError with _ | pair <;>
        refine ⟨?_, ?_, ?_⟩ <;>
          simp only [beforeInsert, runInsert, manualPayload, notifyM, hj, herr,
            hie, if_pos hcond, if_neg h3] <;>
          rfl
  · intro mid hok
    by_cases hp : env.profileExists = true <;>
      rcases h4 with hj | ⟨kvs, hj⟩ <;>
        simp only [beforeInsert, runInsert, manualPayload, notifyM, hj, hok,
          createProfileM, hp, if_pos hcond, if_neg h3, if_true,
          Bool.false_eq_true, if_false]

/-- C4 witness: the amended send outcome at the concrete manual text document,
for the failing environment (status Failed, error raised, nothing persisted)
and, packaged with it, the successful environment (persisted as Success). -/
theorem c4_send_failure_not_persisted_witness :
    ((beforeInsert c4doc sendEnvFail).1.status = "Failed"
      ∧ (beforeInsert c4doc sendEnvFail).2.2.isSome = true
      ∧ runInsert c4doc sendEnvFail = none)
    ∧ runInsert c4doc sendEnvOk =
        some { c4doc with message_id := "wamid.NEW1", status := "Success" } :=
  ⟨(c4_send_failure_not_persisted c4doc sendEnvFail rfl rfl (by decide)
      (Or.inl rfl)).1 "connection error" rfl,
   (c4_send_failure_not_persisted c4doc sendEnvOk rfl rfl (by decide)
      (Or.inl rfl)).2 "wamid.NEW1" rfl⟩

/-- C9: on the template-or-custom path, custom JSON whose decoded `type` is
`text`, `location` or `contacts` makes `send_template` reclassify the record
(`message_type` becomes Manual, `content_type` the decoded type) and return
without calling the send API; since `before_insert` has already taken the
Template branch, the whole insert makes no POST and the record persists. -/
theorem c9_custom_json_reclassified (doc : WDoc) (env : SendEnv)
    (tjkvs : List (String × JValue)) (ty : String)
    (h1 : doc.type = "Outgoing") (h2 : doc.message_id = "")
    (h3 : doc.message_type = "Template") (h4 : doc.template = "")
    (h5 : doc.template_json = some (.jobj tjkvs))
    (hty : ((sendTemplateBase doc).dictUpdate (.jobj tjkvs)).getJ "type" = .jstr ty)
    (h6 : ty = "text" ∨ ty = "location" ∨ ty = "contacts") :
    (beforeInsert doc env).2.2 = none
    ∧ (beforeInsert doc env).1.message_type = "Manual"
    ∧ (beforeInsert doc env).1.content_type = ty
    ∧ (∀ p, Call.post p ∉ (beforeInsert doc env).2.1)
    ∧ runInsert doc env =
        some { doc with message_type := "Manual", content_type := ty } := by
  have hcond : doc.type = "Outgoing" ∧ doc.message_id = "" := ⟨h1, h2⟩
  have hne : ¬doc.template ≠ "" := by
    rw [h4]
    exact fun h => h rfl
  have hb : beforeInsert doc env =
      ({ doc with message_type := "Manual", content_type := ty },
       (if env.profileExists then [] else [Call.insertProfile]), none) := by
    rcases h6 with rfl | rfl | rfl <;>
    · by_cases hp : env.profileExists = true
      · simp only [beforeInsert, sendTemplateM, createProfileM, h3, h5, hty,
          hp, if_pos hcond, if_true, if_neg hne]
        rfl
      · rw [Bool.not_eq_true] at hp
        simp only [beforeInsert, sendTemplateM, createProfileM, h3, h5, hty,
          hp, if_pos hcond, if_neg hne, Bool.false_eq_true, if_false]
        rfl
  refine ⟨?_, ?_, ?_, ?_, ?_⟩
  · rw [hb]
  · rw [hb]
  · rw [hb]
  · intro p
    rw [hb]
    by_cases hp : env.profileExists = true
    · simp [hp]
    · rw [Bool.not_eq_true] at hp
      simp [hp]
  · rw [runInsert, hb]

/-- C9 witness: the concrete custom-JSON text payload is reclassified as a
Manual text record with no POST call during the insert. -/
theorem c9_custom_json_reclassified_witness :
    (beforeInsert c9doc sendEnvFail).2.2 = none
    ∧ (beforeInsert c9doc sendEnvFail).1.message_type = "Manual"
    ∧ (beforeInsert c9doc sendEnvFail).1.content_type = "text"
    ∧ (∀ p, Call.post p ∉ (beforeInsert c9doc sendEnvFail).2.1)
    ∧ runInsert c9doc sendEnvFail =
        some { c9doc with message_type := "Manual", content_type := "text" } :=
  c9_custom_json_reclassified c9doc sendEnvFail
    [("type", .jstr "text"), ("text", .jobj [("body", .jstr "yo")])] "text"
    rfl rfl rfl rfl rfl rfl (Or.inl rfl)

end FWhats
